import Mathlib

/-!
Shallow embedding of watchdogd.c, a small userspace watchdog daemon.

Modelling conventions:
* C int values are Lean Int; C integer division truncates toward zero and is
  embedded as Int.tdiv.
* The external world (kernel, watchdog driver) is a DeviceModel parameter:
  the value open(2) returns (-1 on failure, as in the C code), whether the
  WDIOC_SETTIMEOUT ioctl fails, and the value wdt_get_timeout returns
  (negative on query failure, since the C code assigns the ioctl error
  return to count).
* Observable behaviour is a trace of Action values: device operations,
  process exit, and the unconditional error/warning logs (ERROR / PERROR).
  DEBUG logging is conditional on the verbose flag and purely diagnostic,
  and the log sink is an external collaborator, so DEBUG messages are kept
  outside the action alphabet.
* Command-line option parsing (getopt_long and atoi) is an external
  collaborator: options arrive already decoded as Opt values carrying the
  atoi result; the -v and -h options return from main before the core runs
  and are not modelled.
-/

namespace Watchdogd

/-- WDT_TIMEOUT_DEFAULT, watchdogd.c line 34. -/
def WDT_TIMEOUT_DEFAULT : Int := 20

/-- WDT_KICK_DEFAULT, watchdogd.c line 35: WDT_TIMEOUT_DEFAULT / 2 with C
truncating division. -/
def WDT_KICK_DEFAULT : Int := Int.tdiv WDT_TIMEOUT_DEFAULT 2

/-- Observable actions of the daemon: device-file operations, ioctls,
unconditional error/warning logs, process exit, and the scheduler's kick
and sleep. -/
inductive Action where
  | openDev : Action
  | setTimeoutCall : Int → Action
  | getTimeoutCall : Action
  | warnSetTimeoutFailed : Action
  | warnGetTimeoutFailed : Action
  | warnMargin : Int → Int → Action
  | errOpenFailed : Action
  | writeDev : String → Nat → Action
  | closeDev : Action
  | exitProc : Nat → Action
  | kick : Action
  | sleepFor : Int → Action
  deriving DecidableEq

/-- Configuration assembled by the getopt_long loop in main
(watchdogd.c lines 129-188): local variables timeout, period, background,
logfile, and the globals verbose and the armed signal handler. -/
structure Config where
  timeout : Int
  period : Int
  safeExit : Bool
  verboseFlag : Bool
  background : Bool
  logfile : Option String
  deriving DecidableEq

/-- Initial values of main's locals (lines 129-134): timeout
WDT_TIMEOUT_DEFAULT, period -1 (the sentinel for no explicit -k), daemonize
by default, no handler armed. -/
def initConfig : Config :=
  { timeout := WDT_TIMEOUT_DEFAULT, period := -1, safeExit := false,
    verboseFlag := false, background := true, logfile := none }

/-- Config-affecting command-line options, already decoded (atoi applied to
optarg by the external parsing collaborator). The safeExitO option models
the -s case, which calls setup_magic_close immediately, arming the
SIGINT/SIGTERM handler. -/
inductive Opt where
  | foreground : Opt
  | logfileO : String → Opt
  | timeoutO : Int → Opt
  | intervalO : Int → Opt
  | safeExitO : Opt
  | verboseO : Opt
  deriving DecidableEq

/-- One arm of the switch in the getopt_long loop (lines 148-187). -/
def applyOpt (cfg : Config) : Opt → Config
  | Opt.foreground => { cfg with background := false }
  | Opt.logfileO s => { cfg with logfile := some s }
  | Opt.timeoutO n => { cfg with timeout := n }
  | Opt.intervalO n => { cfg with period := n }
  | Opt.safeExitO => { cfg with safeExit := true }
  | Opt.verboseO => { cfg with verboseFlag := true }

/-- The whole getopt_long loop: fold the option arms over the initial
configuration. -/
def parseOpts (opts : List Opt) : Config := opts.foldl applyOpt initConfig

/-- Behaviour of the external device driver for one run. -/
structure DeviceModel where
  openResult : Int
  setTimeoutFails : Bool
  getTimeoutResult : Int
  deriving DecidableEq

/-- wdt_kick (lines 56-62): a single fire-and-forget WDIOC_KEEPALIVE ioctl. -/
def wdt_kick : List Action := [Action.kick]

/-- wdt_set_timeout (lines 64-73): issue WDIOC_SETTIMEOUT; on ioctl failure
log a PERROR warning and return normally either way. -/
def wdt_set_timeout (count : Int) (fails : Bool) : List Action :=
  Action.setTimeoutCall count ::
    (if fails then [Action.warnSetTimeoutFailed] else [])

/-- wdt_get_timeout (lines 75-86): returns the WDIOC_GETTIMEOUT count, or the
(negative) ioctl error value on failure; the DeviceModel supplies the value
the function returns, negative meaning failure. -/
def wdt_get_timeout (dev : DeviceModel) : Int := dev.getTimeoutResult

/-- wdt_magic_close (lines 88-96), the SIGINT/SIGTERM handler: if the device
handle is open (fd not -1) write the single magic byte "V" and close the
handle; in every case exit(0). -/
def wdt_magic_close (fd : Int) : List Action :=
  (if fd ≠ -1 then [Action.writeDev "V" 1, Action.closeDev] else []) ++
    [Action.exitProc 0]

/-- The warning block of main (lines 213-221): if the read-back timeout is
negative log the query-failure PERROR, otherwise warn when
real_timeout <= period. -/
def marginCheckActions (real_timeout period : Int) : List Action :=
  if real_timeout < 0 then [Action.warnGetTimeoutFailed]
  else if real_timeout ≤ period then [Action.warnMargin real_timeout period]
  else []

/-- The interval selection of main (lines 223-229): keep an explicit period;
when period is the sentinel -1, use WDT_KICK_DEFAULT if the read-back
timeout is unknown (negative), else real_timeout / 2 with C truncating
division. -/
def effectivePeriod (period real_timeout : Int) : Int :=
  if period = -1 then
    if real_timeout < 0 then WDT_KICK_DEFAULT else Int.tdiv real_timeout 2
  else period

/-- Result of the startup phase: either main exited, or it reached the
while(1) loop with the given kick period. -/
inductive StartupResult where
  | exitedEarly : Nat → StartupResult
  | entersLoop : Int → StartupResult
  deriving DecidableEq

/-- Action trace plus result of the startup phase. -/
structure StartupOutcome where
  actions : List Action
  result : StartupResult
  deriving DecidableEq

/-- main's startup sequence after daemonization (lines 205-230): open the
device (on failure log PERROR and exit(1)); wdt_set_timeout with the
requested timeout; wdt_get_timeout; the warning block; then the interval
selection, after which the while(1) loop is entered. -/
def mainStartup (cfg : Config) (dev : DeviceModel) : StartupOutcome :=
  if dev.openResult = -1 then
    { actions := [Action.openDev, Action.errOpenFailed, Action.exitProc 1],
      result := StartupResult.exitedEarly 1 }
  else
    { actions := Action.openDev ::
        (wdt_set_timeout cfg.timeout dev.setTimeoutFails ++
          Action.getTimeoutCall ::
            marginCheckActions (wdt_get_timeout dev) cfg.period),
      result := StartupResult.entersLoop
        (effectivePeriod cfg.period (wdt_get_timeout dev)) }

/-- When (relative to the run) a single SIGINT or SIGTERM is delivered:
never, after option parsing but before the device is opened, or during the
sleep of loop iteration n. -/
inductive SigTime where
  | never : SigTime
  | beforeOpen : SigTime
  | duringLoop : Nat → SigTime
  deriving DecidableEq

/-- Whether a SIGINT/SIGTERM was delivered at all during the run. -/
def SigTime.delivered : SigTime → Bool
  | SigTime.never => false
  | _ => true

/-- How (and whether) the process run ends. -/
inductive Termination where
  | exited : Nat → Termination
  | killedByDefaultSig : Termination
  | runsForever : Termination
  deriving DecidableEq

/-- Summary of one whole-process run. -/
structure RunSummary where
  termination : Termination
  deviceOpened : Bool
  magicWritten : Bool
  deviceClosed : Bool
  deriving DecidableEq

/-- Whether an action trace writes anything to the device handle. -/
def writesMagic (l : List Action) : Bool :=
  l.any fun a => match a with
    | Action.writeDev _ _ => true
    | _ => false

/-- Whether an action trace closes the device handle. -/
def closesDev (l : List Action) : Bool :=
  l.any fun a => match a with
    | Action.closeDev => true
    | _ => false

/-- Delivering SIGINT or SIGTERM: if setup_magic_close armed the handler the
process runs wdt_magic_close on the current fd and exits 0; otherwise the
default disposition kills the process, touching nothing. -/
def signalOutcome (armed : Bool) (fd : Int) (opened : Bool) : RunSummary :=
  if armed then
    { termination := Termination.exited 0, deviceOpened := opened,
      magicWritten := writesMagic (wdt_magic_close fd),
      deviceClosed := closesDev (wdt_magic_close fd) }
  else
    { termination := Termination.killedByDefaultSig, deviceOpened := opened,
      magicWritten := false, deviceClosed := false }

/-- Whole-run classification built from mainStartup, the while(1) loop and
the signal disposition: a signal before open finds fd still -1; with no
signal a successful startup loops forever; a signal during the loop finds
the fd that open returned. -/
def runProcess (cfg : Config) (dev : DeviceModel) (sig : SigTime) : RunSummary :=
  match sig with
  | SigTime.beforeOpen => signalOutcome cfg.safeExit (-1) false
  | SigTime.never =>
    if dev.openResult = -1 then
      { termination := Termination.exited 1, deviceOpened := false,
        magicWritten := false, deviceClosed := false }
    else
      { termination := Termination.runsForever, deviceOpened := true,
        magicWritten := false, deviceClosed := false }
  | SigTime.duringLoop _ =>
    if dev.openResult = -1 then
      { termination := Termination.exited 1, deviceOpened := false,
        magicWritten := false, deviceClosed := false }
    else signalOutcome cfg.safeExit dev.openResult true

/-- Virtual-clock state of the kick loop: current time and kicks issued. -/
structure LoopState where
  now : Int
  kicks : Nat
  deriving DecidableEq

/-- Outcome type of one iteration of the while(1) body (lines 232-235): the
body is only wdt_kick() followed by sleep(period), so continuation is the
sole constructor - no branch of the body terminates the process. -/
inductive BodyOutcome where
  | continueLoop : LoopState → BodyOutcome
  deriving DecidableEq

/-- Action trace of one iteration of the loop body: the kick comes first,
then the blocking sleep. -/
def bodyActions (period : Int) : List Action :=
  wdt_kick ++ [Action.sleepFor period]

/-- One loop iteration under a virtual clock: the kick is instantaneous at
time s.now, then sleep(period) advances the clock by period. -/
def loopBody (period : Int) (s : LoopState) : BodyOutcome :=
  BodyOutcome.continueLoop { now := s.now + period, kicks := s.kicks + 1 }

/-- Loop state at the start of iteration n (iteration 0 starts at time 0
with no kicks issued). -/
def iterState (period : Int) : Nat → LoopState
  | 0 => { now := 0, kicks := 0 }
  | n + 1 =>
    match loopBody period (iterState period n) with
    | BodyOutcome.continueLoop s => s

/-- Virtual time at which the n-th kick (0-based) is issued: the start of
iteration n. -/
def kickTime (period : Int) (n : Nat) : Int := (iterState period n).now

/-- Predicate picking out the margin warning in an action trace. -/
def isMarginWarn : Action → Bool
  | Action.warnMargin _ _ => true
  | _ => false

/-- Predicate picking out the set-timeout failure warning in a trace. -/
def isSetTimeoutWarn : Action → Bool
  | Action.warnSetTimeoutFailed => true
  | _ => false

/-- Claim C1: for every known (non-negative) negotiated timeout T, when no
explicit kick interval was supplied on the command line (period still the
sentinel -1), the effective kick interval equals T / 2 by integer floor
division. -/
theorem C1_half_timeout_when_no_interval (cfg : Config) (dev : DeviceModel)
    (T : Int) (hopen : dev.openResult ≠ -1) (hno : cfg.period = -1)
    (hT : dev.getTimeoutResult = T) (hpos : 0 ≤ T) :
    (mainStartup cfg dev).result = StartupResult.entersLoop (T / 2) := by
  have h2 : Int.tdiv T 2 = T / 2 := Int.tdiv_eq_ediv hpos (by norm_num)
  simp [mainStartup, hopen, wdt_get_timeout, hT, effectivePeriod, hno, h2,
    Int.not_lt.mpr hpos]

/-- Witness for C1 at negotiated timeout 21 with the default configuration:
the effective interval is 10 (floor of 21 / 2). -/
theorem C1_half_timeout_when_no_interval_witness :
    (mainStartup initConfig ⟨3, false, 21⟩).result =
      StartupResult.entersLoop 10 := by
  have h := C1_half_timeout_when_no_interval initConfig ⟨3, false, 21⟩ 21
    (by decide) (by decide) rfl (by decide)
  simpa using h

/-- Claim C2: for every explicit interval K and known negotiated timeout T
with K at least T, the margin warning is emitted exactly once and K is still
used unchanged as the effective interval. -/
theorem C2_margin_warning_once (cfg : Config) (dev : DeviceModel) (K T : Int)
    (hopen : dev.openResult ≠ -1) (hK : cfg.period = K)
    (hT : dev.getTimeoutResult = T) (hTpos : 0 ≤ T) (hKT : T ≤ K) :
    (mainStartup cfg dev).actions.countP isMarginWarn = 1 ∧
      (mainStartup cfg dev).result = StartupResult.entersLoop K := by
  have hKne : K ≠ -1 := by omega
  constructor
  · cases hsf : dev.setTimeoutFails <;>
      simp [mainStartup, hopen, wdt_get_timeout, hT, hK, marginCheckActions,
        wdt_set_timeout, hsf, Int.not_lt.mpr hTpos, hKT, isMarginWarn,
        List.countP_cons, List.countP_append]
  · simp [mainStartup, hopen, wdt_get_timeout, hT, effectivePeriod, hK, hKne]

/-- Witness for C2 at K = 25, T = 20: one margin warning, interval 25. -/
theorem C2_margin_warning_once_witness :
    (mainStartup { initConfig with period := 25 }
        ⟨3, false, 20⟩).actions.countP isMarginWarn = 1 ∧
      (mainStartup { initConfig with period := 25 } ⟨3, false, 20⟩).result =
        StartupResult.entersLoop 25 :=
  C2_margin_warning_once { initConfig with period := 25 } ⟨3, false, 20⟩ 25 20
    (by decide) rfl rfl (by decide) (by decide)

/-- Claim C3: when the negotiated timeout cannot be read back (negative
return) and no explicit interval was supplied, the effective interval is the
fixed fallback WDT_KICK_DEFAULT = 10, independent of the requested timeout
given with the -w option. -/
theorem C3_unknown_timeout_default (cfg : Config) (dev : DeviceModel)
    (hopen : dev.openResult ≠ -1) (hno : cfg.period = -1)
    (hunk : dev.getTimeoutResult < 0) :
    (mainStartup cfg dev).result = StartupResult.entersLoop WDT_KICK_DEFAULT ∧
      WDT_KICK_DEFAULT = 10 ∧
      ∀ t : Int, (mainStartup { cfg with timeout := t } dev).result =
        StartupResult.entersLoop WDT_KICK_DEFAULT := by
  refine ⟨?_, by decide, fun t => ?_⟩ <;>
    simp [mainStartup, hopen, wdt_get_timeout, effectivePeriod, hno, hunk]

/-- Witness for C3: requested timeout 50, get-timeout fails with -1, no
explicit interval: the effective interval is 10. -/
theorem C3_unknown_timeout_default_witness :
    (mainStartup { initConfig with timeout := 50 } ⟨3, false, -1⟩).result =
        StartupResult.entersLoop WDT_KICK_DEFAULT ∧
      WDT_KICK_DEFAULT = 10 ∧
      (mainStartup { { initConfig with timeout := 50 } with timeout := 77 }
          ⟨3, false, -1⟩).result = StartupResult.entersLoop WDT_KICK_DEFAULT := by
  have h := C3_unknown_timeout_default { initConfig with timeout := 50 }
    ⟨3, false, -1⟩ (by decide) (by decide) (by decide)
  exact ⟨h.1, h.2.1, h.2.2 77⟩

/-- Claim C4: for a run in which the watchdog device was opened, the magic
disable write happens if and only if safe-exit was armed and a SIGINT or
SIGTERM was delivered; on every termination path without the disable write
the device handle is not closed, so the timer keeps running. -/
theorem C4_disable_iff_armed_and_signaled (cfg : Config) (dev : DeviceModel)
    (sig : SigTime) (hopened : (runProcess cfg dev sig).deviceOpened = true) :
    ((runProcess cfg dev sig).magicWritten = true ↔
      (cfg.safeExit = true ∧ sig.delivered = true)) ∧
    ((runProcess cfg dev sig).magicWritten = false →
      (runProcess cfg dev sig).deviceClosed = false) := by
  cases sig <;> cases harm : cfg.safeExit <;>
    by_cases hfd : dev.openResult = -1 <;>
    simp_all [runProcess, signalOutcome, wdt_magic_close, writesMagic,
      closesDev, SigTime.delivered]

/-- Witness for C4: safe-exit armed, device open as fd 3, signal during loop
iteration 0: the disable write happens. -/
theorem C4_disable_iff_armed_and_signaled_witness :
    (((runProcess { initConfig with safeExit := true } ⟨3, false, 20⟩
          (SigTime.duringLoop 0)).magicWritten = true ↔
        (({ initConfig with safeExit := true } : Config).safeExit = true ∧
          (SigTime.duringLoop 0).delivered = true)) ∧
      ((runProcess { initConfig with safeExit := true } ⟨3, false, 20⟩
          (SigTime.duringLoop 0)).magicWritten = false →
        (runProcess { initConfig with safeExit := true } ⟨3, false, 20⟩
          (SigTime.duringLoop 0)).deviceClosed = false)) :=
  C4_disable_iff_armed_and_signaled { initConfig with safeExit := true }
    ⟨3, false, 20⟩ (SigTime.duringLoop 0) (by decide)

/-- Claim C5: with the device handle open, the disable handler performs
exactly the sequence: write the single magic byte "V", close the handle,
exit with status 0 - and nothing else. -/
theorem C5_disable_exact_sequence (fd : Int) (h : fd ≠ -1) :
    wdt_magic_close fd =
      [Action.writeDev "V" 1, Action.closeDev, Action.exitProc 0] := by
  simp [wdt_magic_close, h]

/-- Witness for C5 at fd 3. -/
theorem C5_disable_exact_sequence_witness :
    wdt_magic_close 3 =
      [Action.writeDev "V" 1, Action.closeDev, Action.exitProc 0] :=
  C5_disable_exact_sequence 3 (by decide)

/-- Claim C6: if opening the watchdog device fails (open returns -1), the
process logs the error and exits with status 1 before any timeout
negotiation or scheduling: the trace is exactly open, the error log, and
exit(1), with no kick, no get-timeout and no set-timeout in it. -/
theorem C6_open_failure_fatal (cfg : Config) (dev : DeviceModel)
    (h : dev.openResult = -1) :
    (mainStartup cfg dev).actions =
      [Action.openDev, Action.errOpenFailed, Action.exitProc 1] ∧
    (mainStartup cfg dev).result = StartupResult.exitedEarly 1 ∧
    Action.kick ∉ (mainStartup cfg dev).actions ∧
    Action.getTimeoutCall ∉ (mainStartup cfg dev).actions ∧
    ∀ t : Int, Action.setTimeoutCall t ∉ (mainStartup cfg dev).actions := by
  simp [mainStartup, h]

/-- Witness for C6: open fails with -1 under the default configuration. -/
theorem C6_open_failure_fatal_witness :
    (mainStartup initConfig ⟨-1, false, 20⟩).actions =
        [Action.openDev, Action.errOpenFailed, Action.exitProc 1] ∧
      (mainStartup initConfig ⟨-1, false, 20⟩).result =
        StartupResult.exitedEarly 1 ∧
      Action.kick ∉ (mainStartup initConfig ⟨-1, false, 20⟩).actions := by
  have h := C6_open_failure_fatal initConfig ⟨-1, false, 20⟩ (by decide)
  exact ⟨h.1, h.2.1, h.2.2.1⟩

/-- Claim C7: once startup enters the loop with interval I, every iteration
kicks first and then blocks for I; under the virtual clock the n-th kick is
at time n * I (so the first kick is at 0 and consecutive kicks are exactly I
apart), and every iteration of the body continues the loop - no path inside
it terminates the process. -/
theorem C7_loop_kicks_forever (cfg : Config) (dev : DeviceModel) (I : Int)
    (hloop : (mainStartup cfg dev).result = StartupResult.entersLoop I) :
    bodyActions I = [Action.kick, Action.sleepFor I] ∧
    kickTime I 0 = 0 ∧
    (∀ n : Nat, kickTime I (n + 1) = kickTime I n + I) ∧
    (∀ n : Nat, kickTime I n = n * I) ∧
    (∀ s : LoopState, ∃ s2 : LoopState,
      loopBody I s = BodyOutcome.continueLoop s2) := by
  refine ⟨rfl, rfl, fun n => rfl, fun n => ?_, fun s => ⟨_, rfl⟩⟩
  induction n with
  | zero => simp [kickTime, iterState]
  | succ n ih =>
    have hstep : kickTime I (n + 1) = kickTime I n + I := rfl
    rw [hstep, ih]
    push_cast
    ring

/-- Witness for C7 with the default configuration and negotiated timeout 20
(so I = 10): kick times 0 and 30 for iterations 0 and 3. -/
theorem C7_loop_kicks_forever_witness :
    bodyActions 10 = [Action.kick, Action.sleepFor 10] ∧
      kickTime 10 0 = 0 ∧ kickTime 10 3 = 30 := by
  have h := C7_loop_kicks_forever initConfig ⟨3, false, 20⟩ 10 (by decide)
  refine ⟨h.1, h.2.1, ?_⟩
  have h3 := h.2.2.2.1 3
  simpa using h3

/-- Claim C8: a set-timeout failure is non-fatal: exactly one warning is
logged, startup still reaches the loop, and the effective interval is a
function of the period option and the read-back timeout only - changing the
requested timeout never changes it. -/
theorem C8_set_timeout_failure_nonfatal (cfg : Config) (dev : DeviceModel)
    (hopen : dev.openResult ≠ -1) (hfail : dev.setTimeoutFails = true) :
    (mainStartup cfg dev).actions.countP isSetTimeoutWarn = 1 ∧
    (mainStartup cfg dev).result = StartupResult.entersLoop
      (effectivePeriod cfg.period dev.getTimeoutResult) ∧
    ∀ t : Int, (mainStartup { cfg with timeout := t } dev).result =
      (mainStartup cfg dev).result := by
  refine ⟨?_, ?_, fun t => ?_⟩
  · have hm : ∀ rt p : Int,
        (marginCheckActions rt p).countP isSetTimeoutWarn = 0 := by
      intro rt p
      unfold marginCheckActions
      split_ifs <;> simp [isSetTimeoutWarn]
    simp [mainStartup, hopen, wdt_set_timeout, hfail, isSetTimeoutWarn,
      List.countP_cons, List.countP_append, hm]
  · simp [mainStartup, hopen, wdt_get_timeout]
  · simp [mainStartup, hopen, wdt_get_timeout]

/-- Witness for C8: set-timeout fails, read-back 21, default config: one
warning, loop entered with interval 10, and requested timeout 99 gives the
same result. -/
theorem C8_set_timeout_failure_nonfatal_witness :
    (mainStartup initConfig ⟨3, true, 21⟩).actions.countP isSetTimeoutWarn
        = 1 ∧
      (mainStartup initConfig ⟨3, true, 21⟩).result =
        StartupResult.entersLoop (effectivePeriod initConfig.period 21) ∧
      (mainStartup { initConfig with timeout := 99 } ⟨3, true, 21⟩).result =
        (mainStartup initConfig ⟨3, true, 21⟩).result := by
  have h := C8_set_timeout_failure_nonfatal initConfig ⟨3, true, 21⟩
    (by decide) (by decide)
  exact ⟨h.1, h.2.1, h.2.2 99⟩

/-- Claim C9: an explicit -k -1 is indistinguishable from supplying no
interval: it stores the same sentinel -1 the configuration starts with, so
appending it to options that left the period at -1 changes nothing, and the
derived effective interval is never -1 itself. -/
theorem C9_interval_minus_one_sentinel (l1 l2 : List Opt)
    (h : (parseOpts l1).period = -1) :
    parseOpts (l1 ++ Opt.intervalO (-1) :: l2) = parseOpts (l1 ++ l2) ∧
      initConfig.period = -1 ∧
      ∀ rt : Int, effectivePeriod (-1) rt ≠ -1 := by
  refine ⟨?_, rfl, fun rt => ?_⟩
  · have heq : applyOpt (parseOpts l1) (Opt.intervalO (-1)) = parseOpts l1 := by
      cases hc : parseOpts l1
      rw [hc] at h
      simp_all [applyOpt]
    calc parseOpts (l1 ++ Opt.intervalO (-1) :: l2)
        = List.foldl applyOpt
            (applyOpt (parseOpts l1) (Opt.intervalO (-1))) l2 := by
          simp [parseOpts, List.foldl_append]
      _ = List.foldl applyOpt (parseOpts l1) l2 := by rw [heq]
      _ = parseOpts (l1 ++ l2) := by simp [parseOpts, List.foldl_append]
  · have hnn : rt < 0 ∨ 0 ≤ Int.tdiv rt 2 := by
      rcases lt_or_le rt 0 with hlt | hge
      · exact Or.inl hlt
      · exact Or.inr (Int.tdiv_nonneg hge (by norm_num))
    unfold effectivePeriod
    rcases hnn with hlt | hge <;> split_ifs <;> first | decide | omega

/-- Witness for C9: -k -1 as the only option yields the very initial
configuration, and the interval derived from read-back 7 is 3, not -1. -/
theorem C9_interval_minus_one_sentinel_witness :
    parseOpts ([] ++ Opt.intervalO (-1) :: []) = parseOpts ([] ++ []) ∧
      initConfig.period = -1 ∧ effectivePeriod (-1) 7 ≠ -1 := by
  have h := C9_interval_minus_one_sentinel [] [] (by decide)
  exact ⟨h.1, h.2.1, h.2.2 7⟩

/-- Claim C10: with safe-exit armed, a SIGINT or SIGTERM delivered before
the device is opened (handle still -1) makes the handler exit the process
with status 0 without writing the magic byte and without closing any
handle: the handler trace at fd -1 is exactly exit(0). -/
theorem C10_signal_before_open (cfg : Config) (dev : DeviceModel)
    (harm : cfg.safeExit = true) :
    runProcess cfg dev SigTime.beforeOpen =
      { termination := Termination.exited 0, deviceOpened := false,
        magicWritten := false, deviceClosed := false } ∧
      wdt_magic_close (-1) = [Action.exitProc 0] := by
  constructor
  · simp [runProcess, signalOutcome, harm, wdt_magic_close, writesMagic,
      closesDev]
  · rfl

/-- Witness for C10 with safe-exit armed in the default configuration. -/
theorem C10_signal_before_open_witness :
    runProcess { initConfig with safeExit := true } ⟨3, false, 20⟩
        SigTime.beforeOpen =
      { termination := Termination.exited 0, deviceOpened := false,
        magicWritten := false, deviceClosed := false } ∧
      wdt_magic_close (-1) = [Action.exitProc 0] :=
  C10_signal_before_open { initConfig with safeExit := true } ⟨3, false, 20⟩
    (by decide)

end Watchdogd
